import Mathlib

set_option maxRecDepth 8000

/-!
Shallow embedding of `src/Scripts/run_browser_actions.py` (class
`BrowserWorkflow`): parameter bags, action dispatch, the success/failure
result envelope, the error-suggestion classifier, snapshot HTML cleaning,
JS-result truncation, and the bounded network-request capture log.

The browser (Playwright page) is an external collaborator; it is modelled
as an oracle (`Page`) that fixes the page observations (content, title,
url, scroll position), the outcome of each side-effecting browser call,
and the value produced by JS evaluation.  Handlers record the browser
calls they issue as an explicit trace.
-/

namespace BW

/-- Python values as they occur in a step parameter bag (`Dict[str, Any]`). -/
inductive PVal where
  | pStr (s : String)
  | pInt (n : Int)
  | pBool (b : Bool)
  | pNone
deriving DecidableEq, Repr

/-- Python truthiness, as used by the `if not x` validation guards. -/
def PVal.truthy : PVal → Bool
  | .pStr s => !s.isEmpty
  | .pInt n => n != 0
  | .pBool b => b
  | .pNone => false

/-- Python `str(x)`, as used by f-string interpolation into messages. -/
def PVal.pyStr : PVal → String
  | .pStr s => s
  | .pInt n => toString n
  | .pBool true => "True"
  | .pBool false => "False"
  | .pNone => "None"

/-- A parameter bag: string-keyed mapping of Python values. -/
abbrev Params := List (String × PVal)

/-- Embeds `params.get(k)`: the stored value, or `none` when absent. -/
def pget : Params → String → Option PVal
  | [], _ => none
  | (k2, v) :: rest, k => if k2 = k then some v else pget rest k

/-- Embeds `params.get(k, d)`: the stored value (even a stored `None`),
or the default `d` when the key is absent. -/
def pgetD (ps : Params) (k : String) (d : PVal) : PVal :=
  (pget ps k).getD d

/-- Reads an integer-valued parameter with a default.  (A non-integer
value stored under a numeric key would raise in Python before reaching
the behaviour the claims are about; the model reads the integer when
present and the default otherwise.) -/
def pgetInt (ps : Params) (k : String) (d : Int) : Int :=
  match pget ps k with
  | some (.pInt n) => n
  | _ => d

/-- Embeds the Python slice `s[:n]` for a nonnegative bound. -/
def strTake (s : String) (n : Nat) : String := ⟨s.toList.take n⟩

/-- Embeds the Python slice `s[:n]` for any integer bound
(`s[:-k]` drops the final `k` characters). -/
def pySlice (s : String) (n : Int) : String :=
  if 0 ≤ n then strTake s n.toNat else strTake s (s.length - (-n).toNat)

/-- Embeds the Python substring test `needle in hay`. -/
def containsSub (hay needle : String) : Bool :=
  hay.toList.tails.any (fun t => needle.toList.isPrefixOf t)

/-- Configuration constant `MAX_SNAPSHOT_LENGTH` from the source. -/
def MAX_SNAPSHOT_LENGTH : Int := 5000

/-- Configuration constant `MAX_REQUESTS` from the source. -/
def MAX_REQUESTS : Nat := 50

/-- Configuration constant `MAX_JS_RESULT_LENGTH` from the source. -/
def MAX_JS_RESULT_LENGTH : Nat := 2000

/-- Configuration constant `DEFAULT_TIMEOUT` from the source. -/
def DEFAULT_TIMEOUT : Int := 30000

/-- A raised Python exception: either Playwright's `TimeoutError` (caught
by class in `execute_action`) or any other exception carrying its class
name (`type(e).__name__`) and message. -/
inductive PyExc where
  | playwrightTimeout (msg : String)
  | other (name msg : String)
deriving DecidableEq, Repr

/-- Shorthand for `raise ValueError(m)`. -/
def valueError (m : String) : PyExc := .other "ValueError" m

/-- One invocation of a browser primitive, recorded in the call trace. -/
structure BCall where
  op : String
  args : List PVal
deriving DecidableEq, Repr

/-- The value produced by `page.evaluate(script)`, classified by what
`json.dumps` does with it: `None`, a serializable value together with its
JSON serialization, or a value on which `json.dumps` raises `TypeError`. -/
inductive JsVal where
  | pyNone
  | jsonOk (dumps : String)
  | notSerializable (typeName : String)
deriving DecidableEq, Repr

/-- Embeds `json.dumps` on an evaluation result. -/
def jsonDumps : JsVal → Except PyExc String
  | .pyNone => .ok "null"
  | .jsonOk s => .ok s
  | .notSerializable t =>
      .error (.other "TypeError" ("Object of type " ++ t ++ " is not JSON serializable"))

/-- One entry of the captured-request log (`self.captured_requests`).
The `url` field is stored already truncated to 200 characters. -/
structure CapturedRequest where
  url : String
  method : String
  resource_type : String
  status : Option Int := none
deriving DecidableEq, Repr

/-- A result-fields value (the values appearing in a handler result dict). -/
inductive FVal where
  | fStr (s : String)
  | fInt (n : Int)
  | fBool (b : Bool)
  | fVal (v : PVal)
  | fReqs (rs : List CapturedRequest)
  | fKb (tenths : Int)
deriving DecidableEq, Repr

/-- A handler result dict. -/
abbrev Fields := List (String × FVal)

/-- The uniform result envelope `execute_action` produces for every step:
`{status:success, **fields}` or `{status:error, error_type, message, suggestion}`. -/
inductive ActionResult where
  | success (fields : Fields)
  | failure (error_type message suggestion : String)
deriving DecidableEq, Repr

/-- Whether the envelope has `status == error`. -/
def ActionResult.isError : ActionResult → Bool
  | .success _ => false
  | .failure _ _ _ => true

/-- The `error_type` field of a failure envelope. -/
def ActionResult.errType : ActionResult → Option String
  | .success _ => none
  | .failure t _ _ => some t

/-- The `message` field of a failure envelope. -/
def ActionResult.msg : ActionResult → Option String
  | .success _ => none
  | .failure _ m _ => some m

/-- The mutable workflow state: the request-capture flag and log
(`self.capturing_requests`, `self.captured_requests`). -/
structure WState where
  capturing : Bool
  captured : List CapturedRequest
deriving DecidableEq, Repr

/-- The state a fresh `BrowserWorkflow` starts in. -/
def initState : WState := ⟨false, []⟩

/-- The browser-collaborator oracle: page observations, the outcome of
each side-effecting call, and the JS evaluation function. -/
structure Page where
  pageContent : String
  pageTitle : String
  pageUrl : String
  scrollY : Int
  evalJs : String → Except PyExc JsVal
  opOutcome : BCall → Option PyExc
  screenshotB64 : Bool → String
  screenshotKb10 : Bool → Int

/-- Case-insensitive character comparison (ASCII lowering, as Python
regex `re.IGNORECASE` behaves on the tag patterns involved). -/
def lowerEq (a b : Char) : Bool := a.toLower == b.toLower

/-- Case-insensitive prefix test: does the pattern (first argument) start
the string (second argument)? -/
def startsWithCI : List Char → List Char → Bool
  | [], _ => true
  | _ :: _, [] => false
  | p :: ps, c :: cs => lowerEq p c && startsWithCI ps cs

/-- Embeds `[^>]*>` after the tag name: consume up to and including the
first `>`; fail if there is none. -/
def dropGt : List Char → Option (List Char)
  | [] => none
  | c :: cs => if c == '>' then some cs else dropGt cs

/-- The closing-tag pattern for a tag name. -/
def closeTagOf (tag : List Char) : List Char := '<' :: '/' :: (tag ++ ['>'])

/-- Embeds the lazy `.*?</tag>` with `re.DOTALL | re.IGNORECASE`: scan for
the first case-insensitive occurrence of the closing tag and consume
through it. -/
def findCloseTag (tag : List Char) : List Char → Option (List Char)
  | [] => none
  | c :: cs =>
    if startsWithCI (closeTagOf tag) (c :: cs) then some ((c :: cs).drop (closeTagOf tag).length)
    else findCloseTag tag cs

/-- Tries to match `<tag[^>]*>.*?</tag>` (DOTALL, IGNORECASE) at the head
of the string; on success returns the remainder after the match. -/
def matchTagBlock (tag : List Char) (s : List Char) : Option (List Char) :=
  if startsWithCI ('<' :: tag) s then
    match dropGt (s.drop (tag.length + 1)) with
    | none => none
    | some afterOpen => findCloseTag tag afterOpen
  else none

/-- Embeds the lazy `.*?-->` of the comment pattern: scan for the first
occurrence of the closing delimiter and consume through it. -/
def findCommentEnd : List Char → Option (List Char)
  | [] => none
  | c :: cs =>
    if ['-', '-', '>'].isPrefixOf (c :: cs) then some ((c :: cs).drop 3)
    else findCommentEnd cs

/-- Tries to match `<!--.*?-->` (DOTALL) at the head of the string. -/
def matchComment (s : List Char) : Option (List Char) :=
  if ['<', '!', '-', '-'].isPrefixOf s then findCommentEnd (s.drop 4) else none

/-- Fuelled left-to-right non-overlapping delete-substitution: at each
position, delete a match of the pattern if one starts here, otherwise
keep the character and move on.  This is the semantics of
`re.sub(pattern, empty, s)` for the patterns used by the source.  Each
step consumes at least one character of the input, so fuel equal to the
input length makes the fuel bound unreachable. -/
def subDeleteFuel (m : List Char → Option (List Char)) : Nat → List Char → List Char
  | 0, s => s
  | _ + 1, [] => []
  | fuel + 1, c :: cs =>
    match m (c :: cs) with
    | some rest => subDeleteFuel m fuel rest
    | none => c :: subDeleteFuel m fuel cs

/-- Left-to-right delete-substitution over a whole string. -/
def subDelete (m : List Char → Option (List Char)) (s : List Char) : List Char :=
  subDeleteFuel m s.length s

def scriptTag : List Char := ['s', 'c', 'r', 'i', 'p', 't']

def styleTag : List Char := ['s', 't', 'y', 'l', 'e']

/-- Embeds `re.sub(script-block-pattern, empty, s, DOTALL | IGNORECASE)`. -/
def stripScripts (s : List Char) : List Char := subDelete (matchTagBlock scriptTag) s

/-- Embeds `re.sub(style-block-pattern, empty, s, DOTALL | IGNORECASE)`. -/
def stripStyles (s : List Char) : List Char := subDelete (matchTagBlock styleTag) s

/-- Embeds `re.sub(comment-pattern, empty, s, DOTALL)`. -/
def stripComments (s : List Char) : List Char := subDelete matchComment s

/-- Python regex `\s` on the whitespace characters occurring in HTML text. -/
def isPySpace (c : Char) : Bool :=
  c == ' ' || c == '\t' || c == '\n' || c == '\r' || c == '\x0b' || c == '\x0c'

/-- Fuelled worker for `collapseWs`; as with `subDeleteFuel`, each step
consumes at least one input character, so fuel equal to the input length
makes the fuel bound unreachable. -/
def collapseWsFuel : Nat → List Char → List Char
  | 0, s => s
  | _ + 1, [] => []
  | fuel + 1, c :: cs =>
    if isPySpace c then ' ' :: collapseWsFuel fuel (cs.dropWhile isPySpace)
    else c :: collapseWsFuel fuel cs

/-- Embeds `re.sub(whitespace-run-pattern, single-space, s)`: every maximal
run of whitespace becomes one space. -/
def collapseWs (s : List Char) : List Char := collapseWsFuel s.length s

/-- The full `clean` pipeline of `_capture_snapshot`: strip script blocks,
then style blocks, then comments, then collapse whitespace runs. -/
def cleanContent (s : String) : String :=
  ⟨collapseWs (stripComments (stripStyles (stripScripts s.toList)))⟩

/-- An outbound request observed by the page (the `request` event payload). -/
structure RequestEv where
  url : String
  method : String
  resource_type : String
deriving DecidableEq, Repr

/-- An inbound response observed by the page (the `response` event payload). -/
structure ResponseEv where
  url : String
  status : Int
deriving DecidableEq, Repr

/-- Embeds the `on_request` listener: while capturing and strictly below
`MAX_REQUESTS` entries, append the request with its URL truncated to 200
characters; otherwise leave the log alone. -/
def onRequest (st : WState) (r : RequestEv) : WState :=
  if st.capturing && decide (st.captured.length < MAX_REQUESTS) then
    { st with captured := st.captured ++ [⟨strTake r.url 200, r.method, r.resource_type, none⟩] }
  else st

/-- Embeds the update loop of `on_response`: set the status of the first
entry whose stored (truncated) URL equals the given URL, then stop. -/
def setStatusFirst (url : String) (status : Int) : List CapturedRequest → List CapturedRequest
  | [] => []
  | req :: rest =>
    if req.url = url then { req with status := some status } :: rest
    else req :: setStatusFirst url status rest

/-- Embeds the `on_response` listener: while capturing, update the first
entry matching the response URL truncated to 200 characters. -/
def onResponse (st : WState) (r : ResponseEv) : WState :=
  if st.capturing then
    { st with captured := setStatusFirst (strTake r.url 200) r.status st.captured }
  else st

/-- The outcome of one handler: raised exception or optional result
fields, together with the trace of browser calls it issued. -/
abbrev HRes := Except PyExc (Option Fields) × List BCall

/-- The `timeout` parameter with its shared default. -/
def getTimeoutP (ps : Params) : PVal := pgetD ps "timeout" (.pInt DEFAULT_TIMEOUT)

/-- Issues one side-effecting browser call: the oracle either raises or
succeeds, in which case the handler returns the given fields. -/
def runOp (pg : Page) (c : BCall) (ok : Option Fields) : HRes :=
  match pg.opOutcome c with
  | some e => (.error e, [c])
  | none => (.ok ok, [c])

/-- Embeds `_navigate`. -/
def navigateH (pg : Page) (ps : Params) : HRes :=
  let url := pgetD ps "url" .pNone
  if !url.truthy then
    (.error (valueError "\x27url\x27 parameter is required for navigate action"), [])
  else
    runOp pg ⟨"goto", [url, pgetD ps "wait_until" (.pStr "domcontentloaded"), getTimeoutP ps]⟩
      (some [("url", .fStr pg.pageUrl), ("title", .fStr pg.pageTitle)])

/-- Embeds `_fill`. -/
def fillH (pg : Page) (ps : Params) : HRes :=
  let selector := pgetD ps "selector" .pNone
  let value := pgetD ps "value" (.pStr "")
  if !selector.truthy then
    (.error (valueError "\x27selector\x27 parameter is required for fill action"), [])
  else
    runOp pg ⟨"fill", [selector, value, getTimeoutP ps]⟩ none

/-- Embeds `_type`. -/
def typeH (pg : Page) (ps : Params) : HRes :=
  let selector := pgetD ps "selector" .pNone
  let text := pgetD ps "text" (.pStr "")
  let delay := pgetD ps "delay" (.pInt 50)
  if !selector.truthy then
    (.error (valueError "\x27selector\x27 parameter is required for type action"), [])
  else
    runOp pg ⟨"type", [selector, text, delay, getTimeoutP ps]⟩ none

/-- Embeds `_click`. -/
def clickH (pg : Page) (ps : Params) : HRes :=
  let selector := pgetD ps "selector" .pNone
  if !selector.truthy then
    (.error (valueError "\x27selector\x27 parameter is required for click action"), [])
  else
    let button := pgetD ps "button" (.pStr "left")
    let clickCount := pgetD ps "click_count" (.pInt 1)
    runOp pg ⟨"click", [selector, button, clickCount, getTimeoutP ps]⟩ none

/-- Embeds `_hover`. -/
def hoverH (pg : Page) (ps : Params) : HRes :=
  let selector := pgetD ps "selector" .pNone
  if !selector.truthy then
    (.error (valueError "\x27selector\x27 parameter is required for hover action"), [])
  else
    runOp pg ⟨"hover", [selector, getTimeoutP ps]⟩ none

/-- Reads `window.scrollY` and produces the `scroll_position` field
(second half of `_scroll`). -/
def readScrollY (pg : Page) (pre : List BCall) : HRes :=
  let c : BCall := ⟨"evaluate", [.pStr "window.scrollY"]⟩
  match pg.opOutcome c with
  | some e => (.error e, pre ++ [c])
  | none => (.ok (some [("scroll_position", .fInt pg.scrollY)]), pre ++ [c])

/-- Embeds `_scroll`: a recognized direction issues one scroll evaluation,
an unrecognized one issues none; either way the current scroll position
is then read and returned. -/
def scrollH (pg : Page) (ps : Params) : HRes :=
  let direction := pgetD ps "direction" (.pStr "down")
  let amount := pgetD ps "amount" (.pInt 500)
  let c1? : Option BCall :=
    if direction = .pStr "down" then
      some ⟨"evaluate", [.pStr ("window.scrollBy(0, " ++ amount.pyStr ++ ")")]⟩
    else if direction = .pStr "up" then
      some ⟨"evaluate", [.pStr ("window.scrollBy(0, -" ++ amount.pyStr ++ ")")]⟩
    else if direction = .pStr "bottom" then
      some ⟨"evaluate", [.pStr "window.scrollTo(0, document.body.scrollHeight)"]⟩
    else if direction = .pStr "top" then
      some ⟨"evaluate", [.pStr "window.scrollTo(0, 0)"]⟩
    else none
  match c1? with
  | some c1 =>
    match pg.opOutcome c1 with
    | some e => (.error e, [c1])
    | none => readScrollY pg [c1]
  | none => readScrollY pg []

/-- Embeds `_wait`. -/
def waitH (pg : Page) (ps : Params) : HRes :=
  runOp pg ⟨"wait_for_timeout", [pgetD ps "timeout" (.pInt 2000)]⟩ none

/-- Embeds `_wait_for_selector`. -/
def waitForSelectorH (pg : Page) (ps : Params) : HRes :=
  let selector := pgetD ps "selector" .pNone
  if !selector.truthy then
    (.error (valueError "\x27selector\x27 parameter is required for wait_for_selector action"), [])
  else
    runOp pg ⟨"wait_for_selector", [selector, pgetD ps "state" (.pStr "visible"), getTimeoutP ps]⟩
      (some [("found", .fBool true), ("selector", .fVal selector)])

/-- Embeds `_screenshot`.  The base64 payload and the one-decimal KB size
are provided by the collaborator oracle (floating-point rounding of the
byte count is abstracted as tenths of a KB). -/
def screenshotH (pg : Page) (ps : Params) : HRes :=
  let fullPage := (pgetD ps "full_page" (.pBool false)).truthy
  runOp pg ⟨"screenshot", [.pBool fullPage]⟩
    (some [("screenshot_base64", .fStr (pg.screenshotB64 fullPage)),
           ("format", .fStr "jpeg"),
           ("size_kb", .fKb (pg.screenshotKb10 fullPage))])

/-- The result dict of `_capture_snapshot`. -/
structure SnapResult where
  html : String
  truncated : Bool
  original_length : Nat
  title : String
  url : String
deriving DecidableEq, Repr

/-- Embeds `_capture_snapshot`: read the page content, optionally clean
it, compute the truncation flag, truncate, and report the length of a
second full-content read as `original_length`. -/
def captureSnapshotH (pg : Page) (ps : Params) : SnapResult :=
  let maxLength := pgetInt ps "max_length" MAX_SNAPSHOT_LENGTH
  let content := pg.pageContent
  let content := if (pgetD ps "clean" (.pBool true)).truthy then cleanContent content else content
  let truncated := decide ((content.length : Int) > maxLength)
  let content := pySlice content maxLength
  { html := content, truncated := truncated,
    original_length := pg.pageContent.length,
    title := pg.pageTitle, url := pg.pageUrl }

/-- The fields dict built from a snapshot result. -/
def snapFields (r : SnapResult) : Fields :=
  [("html", .fStr r.html), ("truncated", .fBool r.truncated),
   ("original_length", .fInt r.original_length),
   ("title", .fStr r.title), ("url", .fStr r.url)]

/-- The browser-call trace of `_capture_snapshot`: two full-content reads
and a title read. -/
def snapCalls : List BCall := [⟨"content", []⟩, ⟨"content", []⟩, ⟨"title", []⟩]

/-- The filtered log returned by a `stop` call: when a filter pattern is
given (and truthy), keep only entries whose URL contains it. -/
def filteredLog (st : WState) (ps : Params) : List CapturedRequest :=
  let pat := pgetD ps "filter" (.pStr "")
  if pat.truthy then st.captured.filter (fun r => containsSub r.url pat.pyStr)
  else st.captured

/-- Embeds `_capture_requests`: with `stop` truthy, freeze capture and
return the (optionally filtered) log capped at `MAX_REQUESTS` together
with its count and an overflow flag; otherwise reset the log and start
capturing. -/
def captureRequestsH (st : WState) (ps : Params) : Fields × WState :=
  if (pgetD ps "stop" (.pBool false)).truthy then
    let requests := filteredLog st ps
    ([("requests", .fReqs (requests.take MAX_REQUESTS)),
      ("count", .fInt requests.length),
      ("truncated", .fBool (decide (requests.length > MAX_REQUESTS)))],
     { st with capturing := false })
  else
    ([("capturing", .fBool true)], { capturing := true, captured := [] })

/-- The result dict of `_evaluate_js`. -/
structure EvalJsResult where
  result : String
  truncated : Bool
deriving DecidableEq, Repr

/-- Embeds `_evaluate_js`: evaluate the script, serialize the result to
JSON (`None` short-circuits to the literal `null`), and truncate the
serialized string to `MAX_JS_RESULT_LENGTH`. -/
def evaluateJsH (pg : Page) (ps : Params) : Except PyExc EvalJsResult × List BCall :=
  let script := pgetD ps "script" .pNone
  if !script.truthy then
    (.error (valueError "\x27script\x27 parameter is required for evaluate_js action"), [])
  else
    let c : BCall := ⟨"evaluate", [script]⟩
    match pg.evalJs script.pyStr with
    | .error e => (.error e, [c])
    | .ok v =>
      let rstr : Except PyExc String :=
        match v with
        | .pyNone => .ok "null"
        | _ => jsonDumps v
      match rstr with
      | .error e => (.error e, [c])
      | .ok s =>
        let tr := decide (s.length > MAX_JS_RESULT_LENGTH)
        (.ok ⟨if tr then strTake s MAX_JS_RESULT_LENGTH else s, tr⟩, [c])

/-- Embeds `_select`: note the distinct guards — the selector is checked
for truthiness, the value only for being `None`. -/
def selectH (pg : Page) (ps : Params) : HRes :=
  let selector := pgetD ps "selector" .pNone
  let value := pgetD ps "value" .pNone
  if !selector.truthy || value == .pNone then
    (.error (valueError "\x27selector\x27 and \x27value\x27 parameters are required for select action"), [])
  else
    runOp pg ⟨"select_option", [selector, value, getTimeoutP ps]⟩ none

/-- Embeds `_press`: with a truthy selector the keystroke goes to that
element, otherwise to the keyboard (focused element). -/
def pressH (pg : Page) (ps : Params) : HRes :=
  let key := pgetD ps "key" .pNone
  if !key.truthy then
    (.error (valueError "\x27key\x27 parameter is required for press action"), [])
  else
    let selector := pgetD ps "selector" .pNone
    if selector.truthy then runOp pg ⟨"press", [selector, key, getTimeoutP ps]⟩ none
    else runOp pg ⟨"keyboard.press", [key]⟩ none

/-- Embeds `_focus`. -/
def focusH (pg : Page) (ps : Params) : HRes :=
  let selector := pgetD ps "selector" .pNone
  if !selector.truthy then
    (.error (valueError "\x27selector\x27 parameter is required for focus action"), [])
  else
    runOp pg ⟨"focus", [selector, getTimeoutP ps]⟩ none

/-- Embeds `_clear` (a fill with the empty string). -/
def clearH (pg : Page) (ps : Params) : HRes :=
  let selector := pgetD ps "selector" .pNone
  if !selector.truthy then
    (.error (valueError "\x27selector\x27 parameter is required for clear action"), [])
  else
    runOp pg ⟨"fill", [selector, .pStr "", getTimeoutP ps]⟩ none

/-- Embeds `_check`. -/
def checkH (pg : Page) (ps : Params) : HRes :=
  let selector := pgetD ps "selector" .pNone
  if !selector.truthy then
    (.error (valueError "\x27selector\x27 parameter is required for check action"), [])
  else
    runOp pg ⟨"check", [selector, getTimeoutP ps]⟩ none

/-- Embeds `_uncheck`. -/
def uncheckH (pg : Page) (ps : Params) : HRes :=
  let selector := pgetD ps "selector" .pNone
  if !selector.truthy then
    (.error (valueError "\x27selector\x27 parameter is required for uncheck action"), [])
  else
    runOp pg ⟨"uncheck", [selector, getTimeoutP ps]⟩ none

/-- The registered action names, in the dictionary order of
`_dispatch_action`. -/
def actionNames : List String :=
  ["navigate", "fill", "type", "click", "hover", "scroll", "wait",
   "wait_for_selector", "screenshot", "capture_snapshot", "capture_requests",
   "evaluate_js", "select", "press", "focus", "clear", "check", "uncheck"]

/-- Python `repr` of a list of strings, used by the unknown-action message. -/
def pyListRepr (xs : List String) : String :=
  "[" ++ String.intercalate ", " (xs.map (fun s => "\x27" ++ s ++ "\x27")) ++ "]"

/-- Lifts a state-free handler result into the dispatch result shape. -/
def liftH (st : WState) (r : HRes) : Except PyExc (Option Fields) × WState × List BCall :=
  (r.1, st, r.2)

/-- Embeds `_dispatch_action`: route the action name to its handler, or
raise the unknown-action `ValueError` enumerating the registered names. -/
def dispatchAction (pg : Page) (st : WState) (action : String) (ps : Params) :
    Except PyExc (Option Fields) × WState × List BCall :=
  match action with
  | "navigate" => liftH st (navigateH pg ps)
  | "fill" => liftH st (fillH pg ps)
  | "type" => liftH st (typeH pg ps)
  | "click" => liftH st (clickH pg ps)
  | "hover" => liftH st (hoverH pg ps)
  | "scroll" => liftH st (scrollH pg ps)
  | "wait" => liftH st (waitH pg ps)
  | "wait_for_selector" => liftH st (waitForSelectorH pg ps)
  | "screenshot" => liftH st (screenshotH pg ps)
  | "capture_snapshot" => (.ok (some (snapFields (captureSnapshotH pg ps))), st, snapCalls)
  | "capture_requests" =>
      let r := captureRequestsH st ps
      (.ok (some r.1), r.2, [])
  | "evaluate_js" =>
      let r := evaluateJsH pg ps
      (match r.1 with
       | .error e => .error e
       | .ok er => .ok (some [("result", .fStr er.result), ("truncated", .fBool er.truncated)]),
       st, r.2)
  | "select" => liftH st (selectH pg ps)
  | "press" => liftH st (pressH pg ps)
  | "focus" => liftH st (focusH pg ps)
  | "clear" => liftH st (clearH pg ps)
  | "check" => liftH st (checkH pg ps)
  | "uncheck" => liftH st (uncheckH pg ps)
  | _ =>
      (.error (valueError ("Unknown action: \x27" ++ action ++ "\x27. Supported: " ++
        pyListRepr actionNames)), st, [])

/-- Embeds `_get_error_suggestion`: priority-ordered substring match on
the lowercased error message. -/
def getErrorSuggestion (errorMsg _action : String) (ps : Params) : String :=
  let el := errorMsg.toLower
  if containsSub el "selector" || containsSub el "not found" then
    "Selector \x27" ++ (pgetD ps "selector" (.pStr "")).pyStr ++
      "\x27 not found. Try: 1) Use capture_snapshot to inspect page structure, 2) Wait for page to load with wait_for_selector, 3) Check if element is inside an iframe."
  else if containsSub el "timeout" then
    "Operation timed out. Try increasing timeout parameter or check if the page loaded correctly."
  else if containsSub el "navigation" then
    "Navigation failed. Verify the URL is correct and accessible."
  else if containsSub el "detached" then
    "Element was removed from page. The page might have reloaded or content changed dynamically."
  else
    "Check action parameters and ensure the page state is correct before this action."

/-- The selector rendering in the timeout message:
`params.get(selector-key, unknown-literal)` interpolated by `str`. -/
def timeoutSelStr (ps : Params) : String :=
  match pget ps "selector" with
  | some v => v.pyStr
  | none => "unknown"

/-- The fixed-template message of the `PlaywrightTimeout` catch branch. -/
def timeoutMessage (ps : Params) : String :=
  "Timeout waiting for: " ++ timeoutSelStr ps ++ ". Try increasing timeout or check selector."

/-- The fixed suggestion of the `PlaywrightTimeout` catch branch. -/
def timeoutSuggestion : String :=
  "Use wait_for_selector before this action, or verify the selector exists on the page."

/-- Embeds `execute_action`: run the dispatched handler and coerce its
outcome into the uniform envelope; the `PlaywrightTimeout` catch uses the
fixed template, every other exception is reported by class name with the
message truncated to 500 characters. -/
def executeAction (pg : Page) (st : WState) (action : String) (ps : Params) :
    ActionResult × WState × List BCall :=
  match dispatchAction pg st action ps with
  | (.ok none, st2, cs) => (.success [], st2, cs)
  | (.ok (some fs), st2, cs) => (.success fs, st2, cs)
  | (.error (.playwrightTimeout _), st2, cs) =>
      (.failure "TimeoutError" (timeoutMessage ps) timeoutSuggestion, st2, cs)
  | (.error (.other n m), st2, cs) =>
      (.failure n (strTake m 500) (getErrorSuggestion m action ps), st2, cs)

/-- One input step: action name and parameter bag. -/
structure Step where
  action : String
  params : Params
deriving Repr

/-- The result-mapping key `run` uses for the i-th step. -/
def stepKey (i : Nat) (action : String) : String :=
  "step_" ++ toString i ++ "_" ++ action

/-- Embeds the step loop of `run`: execute each step in order, record its
envelope under its key, and break after a failing step whose own params
carry a truthy `stop_on_error`. -/
def runSteps (pg : Page) : WState → Nat → List Step → List (String × ActionResult)
  | _, _, [] => []
  | st, i, s :: rest =>
    let r := executeAction pg st s.action s.params
    let entry := (stepKey i s.action, r.1)
    if r.1.isError && (pgetD s.params "stop_on_error" (.pBool false)).truthy then
      [entry]
    else
      entry :: runSteps pg r.2.1 (i + 1) rest

/-- The workflow state after executing a list of steps in order
(ignoring early termination). -/
def stateAfter (pg : Page) : WState → List Step → WState
  | st, [] => st
  | st, s :: rest => stateAfter pg (executeAction pg st s.action s.params).2.1 rest

/-- Whether a step, executed in a given state, both fails and requests
early termination. -/
def stepStops (pg : Page) (st : WState) (s : Step) : Bool :=
  (executeAction pg st s.action s.params).1.isError &&
    (pgetD s.params "stop_on_error" (.pBool false)).truthy

/-- The result-mapping keys for a list of steps starting at index k. -/
def stepKeys (k : Nat) (steps : List Step) : List String :=
  (List.enumFrom k steps).map (fun p => stepKey p.1 p.2.action)

/-- The events that mutate the capture state during a run: the two page
listeners, and the state effects of the `capture_requests` handler
(start resets the log and sets the flag; stop clears the flag). -/
inductive Ev where
  | req (r : RequestEv)
  | resp (r : ResponseEv)
  | startCap
  | stopCap
deriving Repr

/-- Applies one capture-state event. -/
def applyEv (st : WState) : Ev → WState
  | .req r => onRequest st r
  | .resp r => onResponse st r
  | .startCap => { capturing := true, captured := [] }
  | .stopCap => { st with capturing := false }

/-- The capture state reached from a fresh workflow by a sequence of
events: every state reachable in a run is of this form. -/
def runEvents (evs : List Ev) : WState := evs.foldl applyEv initState

/-- The required-parameter contract each handler enforces with its
leading `raise ValueError` guard, before issuing any browser call. -/
def requiredParams : String → List String
  | "navigate" => ["url"]
  | "fill" => ["selector"]
  | "type" => ["selector"]
  | "click" => ["selector"]
  | "hover" => ["selector"]
  | "wait_for_selector" => ["selector"]
  | "evaluate_js" => ["script"]
  | "select" => ["selector", "value"]
  | "press" => ["key"]
  | "focus" => ["selector"]
  | "clear" => ["selector"]
  | "check" => ["selector"]
  | "uncheck" => ["selector"]
  | _ => []

/-- A page oracle on which every browser call succeeds. -/
def emptyPage : Page :=
  { pageContent := "", pageTitle := "", pageUrl := "", scrollY := 0,
    evalJs := fun _ => .ok .pyNone,
    opOutcome := fun _ => none,
    screenshotB64 := fun _ => "", screenshotKb10 := fun _ => 0 }

/-- A page oracle on which every browser call raises `PlaywrightTimeout`. -/
def timeoutPage : Page :=
  { emptyPage with opOutcome := fun _ => some (.playwrightTimeout "Timeout 30000ms exceeded.") }

/-- A 600-character error message, longer than the 500-character cap. -/
def longError : String := ⟨List.replicate 600 'e'⟩

/-- A page oracle on which every browser call raises a generic exception
with a 600-character message. -/
def errorPage : Page :=
  { emptyPage with opOutcome := fun _ => some (.other "Error" longError) }

/-- A page oracle whose JS evaluation yields a non-JSON-serializable
value (a Python set, say). -/
def nonSerPage : Page :=
  { emptyPage with evalJs := fun _ => .ok (.notSerializable "set") }

/-- A 2001-character JSON serialization, just over the 2000 cap. -/
def longJson : String := ⟨List.replicate 2001 'a'⟩

/-- A page oracle whose JS evaluation yields a value serializing to
`longJson`. -/
def bigJsonPage : Page :=
  { emptyPage with evalJs := fun _ => .ok (.jsonOk longJson) }

/-- A 500-character selector, long enough to push the timeout-path
message past 500 characters. -/
def longSelector : String := ⟨List.replicate 500 'a'⟩

/-- A full capture log: `MAX_REQUESTS` identical entries. -/
def fullLog : List CapturedRequest := List.replicate MAX_REQUESTS ⟨"http://x", "GET", "fetch", none⟩

/-- A capturing state whose log is at the `MAX_REQUESTS` bound. -/
def fullState : WState := ⟨true, fullLog⟩

/-- A capturing state holding a single recorded request. -/
def reqA : CapturedRequest := ⟨"http://a", "GET", "fetch", none⟩

/-- A capturing state with exactly the one entry `reqA`. -/
def stOne : WState := ⟨true, [reqA]⟩

/-- A failing step that requests early termination: `click` without a
selector and with `stop_on_error` set. -/
def stopStep : Step := ⟨"click", [("stop_on_error", .pBool true)]⟩

/-- A well-formed navigation step. -/
def navStep : Step := ⟨"navigate", [("url", .pStr "https://example.com")]⟩

/-- The parameter bag of a plain `capture_requests` stop call. -/
def stopPs : Params := [("stop", .pBool true)]

/-- The Idle state reached by: start capture, observe one request, stop
capture.  Its log still holds the recorded request. -/
def stAfterFirstStop : WState :=
  (captureRequestsH
    (onRequest (captureRequestsH initState []).2 ⟨"http://a", "GET", "fetch"⟩)
    stopPs).2

/-- Looking up an absent key yields the default. -/
theorem pgetD_of_none {ps : Params} {k : String} (h : pget ps k = none) (d : PVal) :
    pgetD ps k d = d := by
  simp [pgetD, h]

/-- Length of the embedded Python slice. -/
theorem strTake_length (s : String) (n : Nat) : (strTake s n).length = min n s.length := by
  cases s with
  | mk data => simp [strTake, String.length, String.toList]

/-- Sanity check of the cleaning pipeline on inputs whose expected outputs
were produced by CPython `re.sub` with the source's patterns and flags. -/
theorem cleanContent_samples :
    cleanContent "<p>a</p><SCRIPT x=1>\nvar y;\n</ScRiPt><!-- c --><style>s</style><p>b</p>  c"
        = "<p>a</p><p>b</p> c" ∧
    cleanContent "<script> <!-- </script> foo -->" = " foo -->" ∧
    cleanContent "<script>a</script" = "<script>a</script" ∧
    cleanContent "<!-- <script>x</script> -->y" = "y" ∧
    cleanContent "x<style>a</style><style>b</style>y" = "xy" := by
  refine ⟨?_, ?_, ?_, ?_, ?_⟩ <;> decide

/-- C1 (counterexample): a `click` step with no parameters at all fails —
before any browser call — but with `error_type` equal to the Python
exception class name `ValueError`, not the spec's `InvalidParameter`. -/
theorem C1_counterexample :
    (executeAction emptyPage initState "click" []).1.isError = true ∧
    (executeAction emptyPage initState "click" []).1.errType = some "ValueError" ∧
    (executeAction emptyPage initState "click" []).2.2 = [] ∧
    some "ValueError" ≠ some "InvalidParameter" := by
  refine ⟨rfl, rfl, rfl, by decide⟩

/-- C1 (amended): for every registered action and every parameter bag
omitting one of that action's required parameters, `execute_action`
returns a Failure whose `error_type` is `ValueError`, the workflow state
is untouched, and no browser call is issued before the failure. -/
theorem C1_missing_required_param (pg : Page) (st : WState) (a : String) (ps : Params)
    (k : String) (ha : a ∈ actionNames) (hk : k ∈ requiredParams a)
    (hmiss : pget ps k = none) :
    (executeAction pg st a ps).1.errType = some "ValueError" ∧
    (executeAction pg st a ps).2.1 = st ∧
    (executeAction pg st a ps).2.2 = [] := by
  simp only [actionNames, List.mem_cons, List.not_mem_nil, or_false] at ha
  rcases ha with rfl|rfl|rfl|rfl|rfl|rfl|rfl|rfl|rfl|rfl|rfl|rfl|rfl|rfl|rfl|rfl|rfl|rfl <;>
    simp only [requiredParams, List.mem_cons, List.not_mem_nil, or_false] at hk
  all_goals try (rcases hk with rfl | rfl)
  all_goals
    simp [executeAction, dispatchAction, liftH, navigateH, fillH, typeH, clickH, hoverH,
      waitForSelectorH, evaluateJsH, selectH, pressH, focusH, clearH, checkH, uncheckH,
      pgetD_of_none hmiss, PVal.truthy, valueError, ActionResult.errType]

/-- C1 (witness): `navigate` with an empty parameter bag. -/
theorem C1_missing_required_param_witness :
    (executeAction emptyPage initState "navigate" []).1.errType = some "ValueError" ∧
    (executeAction emptyPage initState "navigate" []).2.1 = initState ∧
    (executeAction emptyPage initState "navigate" []).2.2 = [] :=
  C1_missing_required_param emptyPage initState "navigate" [] "url" (by decide) (by decide) rfl

/-- C3: with `clean` true, `_capture_snapshot` returns as `html` the page
content with script blocks, style blocks and comments stripped and
whitespace runs collapsed, truncated to `max_length` only after cleaning;
the truncation flag compares the cleaned length to `max_length`; and
`original_length` is the uncleaned full-document length for every
parameter bag, independent of `max_length` and of `clean`. -/
theorem C3_snapshot_clean (pg : Page) (maxLen : Int) (ps : Params) :
    (captureSnapshotH pg [("max_length", .pInt maxLen), ("clean", .pBool true)]).html
        = pySlice (cleanContent pg.pageContent) maxLen ∧
    (captureSnapshotH pg [("max_length", .pInt maxLen), ("clean", .pBool true)]).truncated
        = decide (((cleanContent pg.pageContent).length : Int) > maxLen) ∧
    (captureSnapshotH pg ps).original_length = pg.pageContent.length := by
  refine ⟨?_, ?_, ?_⟩ <;>
    simp [captureSnapshotH, pgetInt, pgetD, pget, PVal.truthy]

/-- Unfolding the keys of a step list one step. -/
theorem stepKeys_cons (k : Nat) (p : Step) (l : List Step) :
    stepKeys k (p :: l) = stepKey k p.action :: stepKeys (k + 1) l := by
  simp [stepKeys, List.enumFrom]

/-- C2: if the steps before position i never both fail and request a
stop, and the i-th step's result is a failure whose own params carry a
truthy `stop_on_error`, then the run's result mapping is exactly that of
the step list cut after position i — the later steps are never executed
and contribute no entry — and its keys are the step keys of positions up
to and including i. -/
theorem C2_stop_on_error (pg : Page) (st : WState) (k : Nat) (pre post : List Step) (s : Step)
    (hpre : ∀ p1 s2 p2, pre = p1 ++ s2 :: p2 → stepStops pg (stateAfter pg st p1) s2 = false)
    (hs : stepStops pg (stateAfter pg st pre) s = true) :
    runSteps pg st k (pre ++ s :: post) = runSteps pg st k (pre ++ [s]) ∧
    (runSteps pg st k (pre ++ s :: post)).map Prod.fst = stepKeys k (pre ++ [s]) := by
  induction pre generalizing st k with
  | nil =>
    have hs0 : ((executeAction pg st s.action s.params).1.isError &&
        (pgetD s.params "stop_on_error" (.pBool false)).truthy) = true := hs
    constructor
    · simp only [List.nil_append, runSteps, hs0, if_true]
    · simp only [List.nil_append, runSteps, hs0, if_true, List.map_cons, List.map_nil]
      simp [stepKeys, List.enumFrom]
  | cons p pre2 ih =>
    have hp : ((executeAction pg st p.action p.params).1.isError &&
        (pgetD p.params "stop_on_error" (.pBool false)).truthy) = false :=
      hpre [] p pre2 rfl
    have ih2 := ih (executeAction pg st p.action p.params).2.1 (k + 1)
      (fun p1 s2 p2 h => hpre (p :: p1) s2 p2 (by rw [List.cons_append, h])) hs
    constructor
    · simp only [List.cons_append, runSteps, hp, Bool.false_eq_true, if_false]
      exact congrArg _ ih2.1
    · simp only [List.cons_append, runSteps, hp, Bool.false_eq_true, if_false, List.map_cons]
      rw [stepKeys_cons]
      exact congrArg _ ih2.2

/-- C2 (witness): a first step that fails validation with
`stop_on_error:true`, followed by a navigation that is never reached. -/
theorem C2_stop_on_error_witness :
    runSteps emptyPage initState 0 ([] ++ stopStep :: [navStep]) =
      runSteps emptyPage initState 0 ([] ++ [stopStep]) ∧
    (runSteps emptyPage initState 0 ([] ++ stopStep :: [navStep])).map Prod.fst =
      stepKeys 0 ([] ++ [stopStep]) :=
  C2_stop_on_error emptyPage initState 0 [] [navStep] stopStep
    (fun p1 s2 p2 h => absurd h (by simp))
    (by decide)

/-- C4: a JS evaluation whose JSON serialization exceeds
`MAX_JS_RESULT_LENGTH` is returned truncated to exactly that length with
`truncated` true; one at most that length is returned verbatim with
`truncated` false. -/
theorem C4_evaluate_js_truncation (pg : Page) (ps : Params) (script sres : String)
    (hps : pget ps "script" = some (.pStr script)) (hne : script.isEmpty = false)
    (hev : pg.evalJs script = .ok (.jsonOk sres)) :
    (sres.length > MAX_JS_RESULT_LENGTH →
      evaluateJsH pg ps =
        (.ok ⟨strTake sres MAX_JS_RESULT_LENGTH, true⟩, [⟨"evaluate", [.pStr script]⟩]) ∧
      (strTake sres MAX_JS_RESULT_LENGTH).length = MAX_JS_RESULT_LENGTH) ∧
    (sres.length ≤ MAX_JS_RESULT_LENGTH →
      evaluateJsH pg ps = (.ok ⟨sres, false⟩, [⟨"evaluate", [.pStr script]⟩])) := by
  have hscript : pgetD ps "script" .pNone = .pStr script := by simp [pgetD, hps]
  constructor
  · intro h
    constructor
    · simp [evaluateJsH, hscript, PVal.truthy, hne, PVal.pyStr, hev, jsonDumps, h]
    · rw [strTake_length]
      omega
  · intro h
    simp [evaluateJsH, hscript, PVal.truthy, hne, PVal.pyStr, hev, jsonDumps,
      Nat.not_lt.mpr h]

/-- The length of a string built from an explicit character list. -/
theorem strMk_length (l : List Char) : (⟨l⟩ : String).length = l.length := rfl

/-- The oversized fixture serialization has 2001 characters. -/
theorem longJson_length : longJson.length = 2001 := by
  rw [longJson, strMk_length, List.length_replicate]

/-- C4 (witness): a 2001-character serialization comes back cut to 2000
characters and flagged. -/
theorem C4_evaluate_js_truncation_witness :
    evaluateJsH bigJsonPage [("script", .pStr "document.title")] =
      (.ok ⟨strTake longJson MAX_JS_RESULT_LENGTH, true⟩,
        [⟨"evaluate", [.pStr "document.title"]⟩]) ∧
    (strTake longJson MAX_JS_RESULT_LENGTH).length = MAX_JS_RESULT_LENGTH :=
  (C4_evaluate_js_truncation bigJsonPage [("script", .pStr "document.title")]
    "document.title" longJson (by decide) rfl rfl).1
    (by rw [longJson_length]; norm_num [MAX_JS_RESULT_LENGTH])

/-- Setting the status of the first match never changes the log length. -/
theorem setStatusFirst_length (u : String) (n : Int) (l : List CapturedRequest) :
    (setStatusFirst u n l).length = l.length := by
  induction l with
  | nil => rfl
  | cons e rest ih =>
    by_cases h : e.url = u <;> simp [setStatusFirst, h, ih]

/-- One capture-state event keeps the log within `MAX_REQUESTS`. -/
theorem applyEv_length_le {st : WState} (e : Ev) (h : st.captured.length ≤ MAX_REQUESTS) :
    (applyEv st e).captured.length ≤ MAX_REQUESTS := by
  cases e with
  | req r =>
    simp only [applyEv, onRequest]
    split
    · rename_i hc
      simp only [Bool.and_eq_true, decide_eq_true_eq] at hc
      simp only [List.length_append, List.length_cons, List.length_nil]
      omega
    · exact h
  | resp r =>
    simp only [applyEv, onResponse]
    split
    · simpa [setStatusFirst_length] using h
    · exact h
  | startCap => simp [applyEv]
  | stopCap => simpa [applyEv] using h

/-- Folding events preserves the log bound. -/
theorem foldl_applyEv_le (evs : List Ev) (st : WState) (h : st.captured.length ≤ MAX_REQUESTS) :
    (evs.foldl applyEv st).captured.length ≤ MAX_REQUESTS := by
  induction evs generalizing st with
  | nil => exact h
  | cons e evs2 ih => exact ih _ (applyEv_length_le e h)

/-- Every reachable capture state keeps the log within `MAX_REQUESTS`. -/
theorem runEvents_length_le (evs : List Ev) :
    (runEvents evs).captured.length ≤ MAX_REQUESTS := by
  exact foldl_applyEv_le evs initState (by simp [initState])

/-- C5: in every reachable state the log holds at most `MAX_REQUESTS`
entries; a request arriving at a state whose log is exactly at the bound
leaves the state untouched; and a response arriving while capturing still
rewrites the first URL-matching entry's status, never changing the log
length. -/
theorem C5_capture_bound (evs : List Ev) (st : WState) (r : RequestEv) (p : ResponseEv)
    (hlen : st.captured.length = MAX_REQUESTS) (hcap : st.capturing = true) :
    (runEvents evs).captured.length ≤ MAX_REQUESTS ∧
    onRequest st r = st ∧
    (onResponse st p).captured = setStatusFirst (strTake p.url 200) p.status st.captured ∧
    (onResponse st p).captured.length = st.captured.length := by
  refine ⟨runEvents_length_le evs, ?_, ?_, ?_⟩
  · simp [onRequest, hlen]
  · simp [onResponse, hcap]
  · simp [onResponse, hcap, setStatusFirst_length]

/-- C5 (witness): a state at the 50-entry bound. -/
theorem C5_capture_bound_witness :
    (runEvents [Ev.startCap]).captured.length ≤ MAX_REQUESTS ∧
    onRequest fullState ⟨"http://y", "GET", "fetch"⟩ = fullState ∧
    (onResponse fullState ⟨"http://x", 200⟩).captured =
      setStatusFirst (strTake "http://x" 200) 200 fullState.captured ∧
    (onResponse fullState ⟨"http://x", 200⟩).captured.length = fullState.captured.length :=
  C5_capture_bound [Ev.startCap] fullState ⟨"http://y", "GET", "fetch"⟩ ⟨"http://x", 200⟩
    (by decide) rfl

/-- A log with no matching URL is left unchanged by the status update. -/
theorem setStatusFirst_no_match {u : String} {n : Int} {l : List CapturedRequest}
    (h : ∀ e ∈ l, e.url ≠ u) : setStatusFirst u n l = l := by
  induction l with
  | nil => rfl
  | cons e rest ih =>
    rw [setStatusFirst, if_neg (h e (by simp)), ih (fun x hx => h x (by simp [hx]))]

/-- Only the first matching entry receives the status update. -/
theorem setStatusFirst_first_match {u : String} {n : Int} (pre : List CapturedRequest)
    (e : CapturedRequest) (post : List CapturedRequest)
    (hpre : ∀ x ∈ pre, x.url ≠ u) (he : e.url = u) :
    setStatusFirst u n (pre ++ e :: post) = pre ++ { e with status := some n } :: post := by
  induction pre with
  | nil => simp [setStatusFirst, he]
  | cons x rest ih =>
    rw [List.cons_append, setStatusFirst, if_neg (hpre x (by simp)),
      ih (fun y hy => hpre y (by simp [hy])), List.cons_append]

/-- C6: while capturing, a response whose truncated URL matches no
recorded entry leaves the state completely unchanged; one that matches
updates the status of exactly the first matching entry and nothing else. -/
theorem C6_response_first_match (st : WState) (r : ResponseEv) (hcap : st.capturing = true) :
    ((∀ e ∈ st.captured, e.url ≠ strTake r.url 200) → onResponse st r = st) ∧
    (∀ pre e post, st.captured = pre ++ e :: post →
      (∀ x ∈ pre, x.url ≠ strTake r.url 200) → e.url = strTake r.url 200 →
      (onResponse st r).captured = pre ++ { e with status := some r.status } :: post) := by
  constructor
  · intro h
    have hr : onResponse st r =
        { st with captured := setStatusFirst (strTake r.url 200) r.status st.captured } := by
      simp [onResponse, hcap]
    rw [hr, setStatusFirst_no_match h]
  · intro pre e post hsplit hpre he
    simp [onResponse, hcap, hsplit, setStatusFirst_first_match pre e post hpre he]

/-- C6 (witness): a one-entry log; a non-matching response is a no-op, a
matching one sets the entry's status. -/
theorem C6_response_first_match_witness :
    onResponse stOne ⟨"http://b", 404⟩ = stOne ∧
    (onResponse stOne ⟨"http://a", 200⟩).captured =
      [] ++ { reqA with status := some 200 } :: [] :=
  ⟨(C6_response_first_match stOne ⟨"http://b", 404⟩ rfl).1 (by decide),
   (C6_response_first_match stOne ⟨"http://a", 200⟩ rfl).2 [] reqA [] rfl
     (by simp) (by decide)⟩

/-- C7 (counterexample): after start-capture, one request, and a stop,
the workflow is Idle but its log persists — a second stop in that Idle
state returns the recorded request with count 1, not an empty result. -/
theorem C7_counterexample :
    stAfterFirstStop.capturing = false ∧
    (captureRequestsH stAfterFirstStop stopPs).1 =
      [("requests", .fReqs [⟨"http://a", "GET", "fetch", none⟩]),
       ("count", .fInt 1), ("truncated", .fBool false)] ∧
    FVal.fInt 1 ≠ FVal.fInt 0 ∧
    FVal.fReqs [⟨"http://a", "GET", "fetch", none⟩] ≠ FVal.fReqs [] := by
  refine ⟨by decide, by decide, by decide, by decide⟩

/-- C7 (amended): a stop call returns an empty result exactly when the
log is empty — in particular in the initial state, where no capture ever
ran — and it clears the capturing flag; a start call always resets the
log to empty and sets the flag, regardless of prior contents. -/
theorem C7_stop_empty_start_resets (st st2 : WState) (ps ps2 : Params)
    (hlog : st.captured = [])
    (hstop : (pgetD ps "stop" (.pBool false)).truthy = true)
    (hstart : (pgetD ps2 "stop" (.pBool false)).truthy = false) :
    (captureRequestsH st ps).1 =
      [("requests", .fReqs []), ("count", .fInt 0), ("truncated", .fBool false)] ∧
    (captureRequestsH st ps).2.capturing = false ∧
    captureRequestsH st2 ps2 = ([("capturing", .fBool true)], ⟨true, []⟩) := by
  refine ⟨?_, ?_, ?_⟩ <;>
    simp [captureRequestsH, filteredLog, hstop, hstart, hlog]

/-- C7 (witness): stop on the pristine initial state, start from a full
capturing state. -/
theorem C7_stop_empty_start_resets_witness :
    (captureRequestsH initState stopPs).1 =
      [("requests", .fReqs []), ("count", .fInt 0), ("truncated", .fBool false)] ∧
    (captureRequestsH initState stopPs).2.capturing = false ∧
    captureRequestsH fullState [] = ([("capturing", .fBool true)], ⟨true, []⟩) :=
  C7_stop_empty_start_resets initState fullState stopPs [] rfl (by decide) (by decide)

/-- C8 (counterexample): on the timeout path the message embeds the raw
selector parameter with no truncation — a 500-character selector yields a
564-character message, over the 500-character bound the claim asserts. -/
theorem C8_counterexample :
    (executeAction timeoutPage initState "click"
        [("selector", .pStr longSelector)]).1.errType = some "TimeoutError" ∧
    ((executeAction timeoutPage initState "click"
        [("selector", .pStr longSelector)]).1.msg.getD "").length = 564 ∧
    ¬(564 ≤ 500) := by
  refine ⟨by decide, ?_, by decide⟩
  have h1 : (executeAction timeoutPage initState "click"
      [("selector", .pStr longSelector)]).1.msg =
      some (timeoutMessage [("selector", .pStr longSelector)]) := by decide
  have h2 : ("Timeout waiting for: ").length = 21 := rfl
  have h3 : (". Try increasing timeout or check selector.").length = 43 := rfl
  rw [h1, Option.getD_some, timeoutMessage, String.length_append, String.length_append,
    timeoutSelStr]
  norm_num [PVal.pyStr, pget, longSelector, strMk_length, h2, h3]

/-- C8 (amended): a Failure produced from a generic exception carries the
exception message truncated to at most 500 characters, but a Failure from
the `PlaywrightTimeout` path carries the untruncated fixed template whose
length is 64 plus the length of the rendered selector parameter, and so
exceeds 500 characters whenever that rendering exceeds 436. -/
theorem C8_message_bounds (pg : Page) (st : WState) (a : String) (ps : Params)
    (n m tm : String) (st1 st2 : WState) (cs1 cs2 : List BCall) :
    (dispatchAction pg st a ps = (.error (.other n m), st1, cs1) →
      (executeAction pg st a ps).1.msg = some (strTake m 500) ∧
      (strTake m 500).length ≤ 500) ∧
    (dispatchAction pg st a ps = (.error (.playwrightTimeout tm), st2, cs2) →
      (executeAction pg st a ps).1.msg = some (timeoutMessage ps) ∧
      (timeoutMessage ps).length = 64 + (timeoutSelStr ps).length) := by
  constructor
  · intro h
    refine ⟨?_, ?_⟩
    · simp [executeAction, h, ActionResult.msg]
    · rw [strTake_length]
      exact Nat.min_le_left _ _
  · intro h
    refine ⟨?_, ?_⟩
    · simp [executeAction, h, ActionResult.msg]
    · have h1 : ("Timeout waiting for: ").length = 21 := rfl
      have h2 : (". Try increasing timeout or check selector.").length = 43 := rfl
      rw [timeoutMessage, String.length_append, String.length_append, h1, h2]
      omega

/-- C8 (witness): a generic 600-character exception message is cut to
500; a timeout with a short selector produces the 64-plus-selector
template. -/
theorem C8_message_bounds_witness :
    ((executeAction errorPage initState "click" [("selector", .pStr "a")]).1.msg =
        some (strTake longError 500) ∧ (strTake longError 500).length ≤ 500) ∧
    ((executeAction timeoutPage initState "click" [("selector", .pStr "a")]).1.msg =
        some (timeoutMessage [("selector", .pStr "a")]) ∧
      (timeoutMessage [("selector", .pStr "a")]).length =
        64 + (timeoutSelStr [("selector", .pStr "a")]).length) :=
  ⟨(C8_message_bounds errorPage initState "click" [("selector", .pStr "a")]
      "Error" longError "" initState initState
      [⟨"click", [.pStr "a", .pStr "left", .pInt 1, .pInt 30000]⟩] []).1 rfl,
   (C8_message_bounds timeoutPage initState "click" [("selector", .pStr "a")]
      "" "" "Timeout 30000ms exceeded." initState initState []
      [⟨"click", [.pStr "a", .pStr "left", .pInt 1, .pInt 30000]⟩]).2 rfl⟩

/-- C9 (counterexample): a non-JSON-serializable evaluation result makes
`evaluate_js` fail, but the recorded `error_type` is the exception class
name `TypeError`, not the spec's `SerializationError`. -/
theorem C9_counterexample :
    (executeAction nonSerPage initState "evaluate_js"
        [("script", .pStr "window.x")]).1.isError = true ∧
    (executeAction nonSerPage initState "evaluate_js"
        [("script", .pStr "window.x")]).1.errType = some "TypeError" ∧
    some "TypeError" ≠ some "SerializationError" := by
  refine ⟨by decide, by decide, by decide⟩

/-- C9 (amended): whenever the evaluation result is not JSON-serializable
(`json.dumps` raises `TypeError`), `evaluate_js` produces a Failure whose
`error_type` is `TypeError`. -/
theorem C9_not_serializable_typeerror (pg : Page) (st : WState) (ps : Params)
    (script t : String)
    (hps : pget ps "script" = some (.pStr script)) (hne : script.isEmpty = false)
    (hev : pg.evalJs script = .ok (.notSerializable t)) :
    (executeAction pg st "evaluate_js" ps).1.isError = true ∧
    (executeAction pg st "evaluate_js" ps).1.errType = some "TypeError" := by
  have hscript : pgetD ps "script" .pNone = .pStr script := by simp [pgetD, hps]
  constructor <;>
    simp [executeAction, dispatchAction, evaluateJsH, hscript, PVal.truthy, hne,
      PVal.pyStr, hev, jsonDumps, ActionResult.isError, ActionResult.errType]

/-- C9 (witness): the fixture page whose evaluation yields a Python set. -/
theorem C9_not_serializable_typeerror_witness :
    (executeAction nonSerPage initState "evaluate_js"
        [("script", .pStr "document.all")]).1.isError = true ∧
    (executeAction nonSerPage initState "evaluate_js"
        [("script", .pStr "document.all")]).1.errType = some "TypeError" :=
  C9_not_serializable_typeerror nonSerPage initState [("script", .pStr "document.all")]
    "document.all" "set" (by decide) rfl rfl

/-- C10: a stop call on any reachable state reports `truncated` false and
returns the whole filtered log: since requests are only appended below
the `MAX_REQUESTS` bound and filtering only removes entries, the filtered
length never exceeds the bound, so the cap on the returned slice and the
overflow flag never bite. -/
theorem C10_stop_result_complete (evs : List Ev) (ps : Params)
    (hstop : (pgetD ps "stop" (.pBool false)).truthy = true) :
    (captureRequestsH (runEvents evs) ps).1 =
      [("requests", .fReqs (filteredLog (runEvents evs) ps)),
       ("count", .fInt ((filteredLog (runEvents evs) ps).length : Int)),
       ("truncated", .fBool false)] ∧
    (filteredLog (runEvents evs) ps).length ≤ MAX_REQUESTS := by
  have hle : (filteredLog (runEvents evs) ps).length ≤ MAX_REQUESTS := by
    have h1 := runEvents_length_le evs
    have h2 : (filteredLog (runEvents evs) ps).length ≤ (runEvents evs).captured.length := by
      rw [filteredLog]
      split
      · exact List.length_filter_le _ _
      · exact Nat.le_refl _
    omega
  refine ⟨?_, hle⟩
  have htake : (filteredLog (runEvents evs) ps).take MAX_REQUESTS =
      filteredLog (runEvents evs) ps := List.take_of_length_le hle
  have htr : decide ((filteredLog (runEvents evs) ps).length > MAX_REQUESTS) = false := by
    simp
    omega
  simp [captureRequestsH, hstop, htake, htr]

/-- C10 (witness): stop on the pristine initial state. -/
theorem C10_stop_result_complete_witness :
    (captureRequestsH (runEvents []) stopPs).1 =
      [("requests", .fReqs (filteredLog (runEvents []) stopPs)),
       ("count", .fInt ((filteredLog (runEvents []) stopPs).length : Int)),
       ("truncated", .fBool false)] ∧
    (filteredLog (runEvents []) stopPs).length ≤ MAX_REQUESTS :=
  C10_stop_result_complete [] stopPs (by decide)

end BW
